import Mathlib

/-! ourd: server start-up (`main.go`).

A shallow embedding of `main` of `main.go`.  `main` is a straight-line
program with two early returns; its effects on the outside world (console
output, environment and file reads, logger set-up, router registrations, the
HTTP listener) are recorded, in program order, as a list of `Event`s.  The
parts of the outside world `main` consults are gathered in `World`.
-/

namespace Ourd

/-! ## Configuration -/

/-- Modelled from the spec: the `Configuration` struct is declared outside
`main.go`; these are the sections and fields `main` reads (`config.HTTP.Host`,
`config.App.Name`, ...), the "configuration surface" of the spec, section 6.
`HTTP` section. -/
structure HTTPSection where
  Host : String
  deriving DecidableEq, Repr

/-- Modelled from the spec: the `App` section of `Configuration` (application
name and API key). -/
structure AppSection where
  Name : String
  APIKey : String
  deriving DecidableEq, Repr

/-- Modelled from the spec: the `DB` section of `Configuration` (backend
implementation name and its option string). -/
structure DBSection where
  ImplName : String
  Option : String
  deriving DecidableEq, Repr

/-- Modelled from the spec: the `TokenStore` section of `Configuration`. -/
structure TokenStoreSection where
  Path : String
  deriving DecidableEq, Repr

/-- Modelled from the spec: the `Subscription` section of `Configuration`. -/
structure SubscriptionSection where
  Enabled : Bool
  deriving DecidableEq, Repr

/-- Modelled from the spec: the `APNS` section of `Configuration` (gateway
address and certificate paths). -/
structure APNSSection where
  Gateway : String
  CertPath : String
  KeyPath : String
  deriving DecidableEq, Repr

/-- Modelled from the spec: the `LOG` section of `Configuration`. -/
structure LOGSection where
  Level : String
  deriving DecidableEq, Repr

/-- Modelled from the spec: the `Configuration` struct of package `main`,
restricted to what `main` reads. -/
structure Configuration where
  HTTP : HTTPSection
  App : AppSection
  DB : DBSection
  TokenStore : TokenStoreSection
  Subscription : SubscriptionSection
  APNS : APNSSection
  LOG : LOGSection
  deriving DecidableEq, Repr

/-! ## Values built by `main` -/

/-- Log levels of the logging library; `main` names `DebugLevel` only. -/
inductive Level
  | PanicLevel | FatalLevel | ErrorLevel | WarnLevel | InfoLevel | DebugLevel
  deriving DecidableEq, Repr

/-- A storage connection handle (`oddb.Conn`), kept abstract. -/
structure Conn where
  handle : Nat
  deriving DecidableEq, Repr

/-- The type of `oddb.Open`: backend name, application name, options. -/
abbrev OpenFn := String → String → String → Except String Conn

/-- Function values of type `OpenFn` that `main` stores in a struct field.
A stored function is represented by the name of the function it denotes;
`main` stores `oddb.Open` only. -/
inductive DBOpenerRef
  | oddb_Open
  deriving DecidableEq, Repr

/-- Calling a stored opener: `oddb_Open` denotes the `oddb.Open` in force. -/
def DBOpenerRef.call (oddbOpen : OpenFn) : DBOpenerRef → OpenFn
  | .oddb_Open => oddbOpen

/-- The function literal of line 48,
`func() (oddb.Conn, error) { return oddb.Open(config.DB.ImplName, config.App.Name, config.DB.Option) }`,
as a closure record: it captures the variable `config`. -/
structure ConnOpenerClosure where
  config : Configuration
  deriving DecidableEq, Repr

/-- Calling the closure of line 48 runs its body. -/
def ConnOpenerClosure.call (oddbOpen : OpenFn) (c : ConnOpenerClosure) : Except String Conn :=
  oddbOpen c.config.DB.ImplName c.config.App.Name c.config.DB.Option

/-- The client `apns.NewClient(gateway, certPath, keyPath)` returns. -/
structure APNSClient where
  Gateway : String
  CertificateFile : String
  KeyFile : String
  deriving DecidableEq, Repr

/-- The struct `push.APNSPusher`. -/
structure APNSPusher where
  Client : APNSClient
  deriving DecidableEq, Repr

/-- The struct `subscription.Service`, with the two fields `main` sets. -/
structure Service where
  ConnOpener : ConnOpenerClosure
  NotificationSender : APNSPusher
  deriving DecidableEq, Repr

/-- The struct `apiKeyValidatonPreprocessor` (name as in the source). -/
structure apiKeyValidatonPreprocessor where
  Key : String
  AppName : String
  deriving DecidableEq, Repr

/-- The value `authtoken.FileStore(path)`. -/
structure FileStore where
  path : String
  deriving DecidableEq, Repr

/-- The struct `tokenStorePreprocessor`. -/
structure tokenStorePreprocessor where
  Store : FileStore
  deriving DecidableEq, Repr

/-- The struct `userAuthenticator`. -/
structure userAuthenticator where
  APIKey : String
  AppName : String
  deriving DecidableEq, Repr

/-- The struct `connPreprocessor`. -/
structure connPreprocessor where
  DBOpener : DBOpenerRef
  DBImpl : String
  Option : String
  deriving DecidableEq, Repr

/-- The values of type `router.Processor` that `main` puts in a chain: the
method values `x.Preprocess`, bound to their receiver `x`, and the two
package-level functions `injectUserIfPresent` and `injectDatabase`. -/
inductive Processor
  | apiKeyValidatonPreprocess (recv : apiKeyValidatonPreprocessor)
  | tokenStorePreprocess (recv : tokenStorePreprocessor)
  | userAuthenticatorPreprocess (recv : userAuthenticator)
  | connPreprocess (recv : connPreprocessor)
  | injectUserIfPresent
  | injectDatabase
  deriving DecidableEq, Repr

/-- Which function a `Processor` is, its receiver forgotten. -/
inductive ProcessorKind
  | apiKeyValidaton | tokenStore | userAuthenticator | conn
  | injectUserIfPresent | injectDatabase
  deriving DecidableEq, Repr

/-- The kind of a processor. -/
def Processor.kind : Processor → ProcessorKind
  | .apiKeyValidatonPreprocess _ => .apiKeyValidaton
  | .tokenStorePreprocess _ => .tokenStore
  | .userAuthenticatorPreprocess _ => .userAuthenticator
  | .connPreprocess _ => .conn
  | .injectUserIfPresent => .injectUserIfPresent
  | .injectDatabase => .injectDatabase

/-- The handlers of package `handler` that `main` registers. -/
inductive Handler
  | HomeHandler | SignupHandler | LoginHandler
  | RecordFetchHandler | RecordQueryHandler | RecordSaveHandler | RecordDeleteHandler
  | DeviceRegisterHandler | SubscriptionSaveHandler
  deriving DecidableEq, Repr

/-! ## The router -/

/-- One `r.Map(action, handler, preprocessors...)` registration: the route
entry of the spec, section 3. -/
structure RouteEntry where
  action : String
  handler : Handler
  preprocessors : List Processor
  deriving DecidableEq, Repr

/-- The two duplicate-registration policies the spec allows (section 3 and
the open question of section 9). -/
inductive DuplicatePolicy
  | reject | overwrite
  deriving DecidableEq, Repr

/-- Modelled from the spec: package `router` is not part of `main.go`.  The
router owns the route entries (spec, section 3), here in registration
order. -/
structure Router where
  actions : List RouteEntry
  deriving DecidableEq, Repr

/-- Modelled from the spec: `router.NewRouter()`, a router with no route. -/
def NewRouter : Router := ⟨[]⟩

/-- Modelled from the spec: the two ways the spec's `Register` can fail
(section 4.1): a malformed (empty) action identifier, and, under the rejecting
policy, an identifier that is already bound. -/
inductive RegisterError
  | malformedAction | duplicateAction
  deriving DecidableEq, Repr

/-- Modelled from the spec: `(*Router).Map`, the `Register` of section 4.1.
"Binds an action identifier to a handler and ordered preprocessor chain.
Fails if the action identifier is malformed (empty)"; re-registering an
identifier "overwrites the prior binding (last-write-wins) or is rejected",
according to the policy. -/
def Router.Map (policy : DuplicatePolicy) (r : Router) (action : String) (handler : Handler)
    (preprocessors : List Processor) : Except RegisterError Router :=
  if action = "" then
    .error .malformedAction
  else if r.actions.any (fun e => e.action == action) then
    match policy with
    | .reject => .error .duplicateAction
    | .overwrite =>
      .ok ⟨r.actions.map
        (fun e => if e.action == action then ⟨action, handler, preprocessors⟩ else e)⟩
  else
    .ok ⟨r.actions ++ [⟨action, handler, preprocessors⟩]⟩

/-- Looking an action up in the router. -/
def Router.lookup (r : Router) (action : String) : Option RouteEntry :=
  r.actions.find? (fun e => e.action == action)

/-! ## Events and the world -/

/-- The effects of `main`, in the order the program performs them. -/
inductive Event
  /-- The call `os.Getenv(name)`. -/
  | Getenv (name : String)
  /-- The call `fmt.Println(line)`. -/
  | Println (line : String)
  /-- The call `ReadFileInto(&config, path)`. -/
  | ReadFileInto (path : String)
  /-- The call `apns.NewClient(gateway, certPath, keyPath)`. -/
  | apnsNewClient (gateway certPath keyPath : String)
  /-- The call `subscriptionService.Init()`. -/
  | subscriptionInit (service : Service)
  /-- The call `log.SetOutput(os.Stderr)`. -/
  | logSetOutputStderr
  /-- The call `log.ParseLevel(level)`. -/
  | logParseLevel (level : String)
  /-- The call `log.SetLevel(level)`. -/
  | logSetLevel (level : Level)
  /-- The call `authtoken.FileStore(path).Init()`. -/
  | fileStoreInit (path : String)
  /-- The call `router.NewRouter()`. -/
  | NewRouter
  /-- The call `r.Map(action, handler, preprocessors...)`. -/
  | Map (action : String) (handler : Handler) (preprocessors : List Processor)
  /-- The call `log.Printf(...)`, with the formatted line. -/
  | logPrintf (line : String)
  /-- The call `http.ListenAndServe(host, r)`. -/
  | ListenAndServe (host : String) (r : Router)
  deriving DecidableEq, Repr

/-- What `main` consults outside itself. -/
structure World where
  /-- The slice `os.Args`: program name first, then the arguments. -/
  Args : List String
  /-- The process environment; `none` for an unset variable. -/
  environ : String → Option String
  /-- The function `ReadFileInto` of package `main` (declared outside
  `main.go`): the configuration it fills in, or the error's message. -/
  ReadFileInto : String → Except String Configuration
  /-- The function `log.ParseLevel`. -/
  ParseLevel : String → Except String Level
  /-- The function `oddb.Open`. -/
  oddbOpen : OpenFn
  /-- The duplicate-registration policy of the router. -/
  policy : DuplicatePolicy
  /-- The error `http.ListenAndServe` returns when it returns (`none`: nil). -/
  ListenAndServe : String → Router → Option String

/-- The function `os.Getenv`: the empty string for an unset variable. -/
def World.Getenv (w : World) (name : String) : String :=
  (w.environ name).getD ""

/-! ## The program -/

/-- The function `usage` (lines 21-23). -/
def usage : List Event :=
  [.Println "Usage: ourd [<config file>]"]

/-- The router under construction together with the events so far. -/
structure Routing where
  trace : List Event
  r : Router
  deriving DecidableEq, Repr

/-- One statement `r.Map(action, handler, preprocessors...)`: the call is
recorded and the router updated.  `main` uses no result of the call, so a
registration that fails leaves the router as it was and the run goes on. -/
def Routing.Map (policy : DuplicatePolicy) (s : Routing) (action : String) (handler : Handler)
    (preprocessors : List Processor) : Routing :=
  { trace := s.trace ++ [.Map action handler preprocessors]
    r := match s.r.Map policy action handler preprocessors with
      | .ok r => r
      | .error _ => s.r }

/-- Lines 62-65. -/
def naiveAPIKeyPreprocessor (config : Configuration) : apiKeyValidatonPreprocessor :=
  { Key := config.App.APIKey, AppName := config.App.Name }

/-- Lines 67-69 (the value; the call of `Init` is an event of `main`). -/
def fileTokenStorePreprocessor (config : Configuration) : tokenStorePreprocessor :=
  { Store := ⟨config.TokenStore.Path⟩ }

/-- Lines 71-74. -/
def authenticator (config : Configuration) : userAuthenticator :=
  { APIKey := config.App.APIKey, AppName := config.App.Name }

/-- Lines 76-80. -/
def fileSystemConnPreprocessor (config : Configuration) : connPreprocessor :=
  { DBOpener := .oddb_Open, DBImpl := config.DB.ImplName, Option := config.DB.Option }

/-- Lines 85-89. -/
def authPreprocessors (config : Configuration) : List Processor :=
  [ .apiKeyValidatonPreprocess (naiveAPIKeyPreprocessor config),
    .connPreprocess (fileSystemConnPreprocessor config),
    .tokenStorePreprocess (fileTokenStorePreprocessor config) ]

/-- Lines 93-99. -/
def recordPreprocessors (config : Configuration) : List Processor :=
  [ .tokenStorePreprocess (fileTokenStorePreprocessor config),
    .userAuthenticatorPreprocess (authenticator config),
    .connPreprocess (fileSystemConnPreprocessor config),
    .injectUserIfPresent,
    .injectDatabase ]

/-- Lines 44-50: the pusher and the subscription service. -/
def subscriptionService (config : Configuration) : Service :=
  let pushSender : APNSPusher :=
    { Client := ⟨config.APNS.Gateway, config.APNS.CertPath, config.APNS.KeyPath⟩ }
  { ConnOpener := ⟨config⟩, NotificationSender := pushSender }

/-- Lines 82-114: the router and its nine registrations. -/
def routes (policy : DuplicatePolicy) (config : Configuration) : Routing :=
  let s : Routing := { trace := [.NewRouter], r := NewRouter }
  let s := s.Map policy "" .HomeHandler []
  let s := s.Map policy "auth:signup" .SignupHandler (authPreprocessors config)
  let s := s.Map policy "auth:login" .LoginHandler (authPreprocessors config)
  let s := s.Map policy "record:fetch" .RecordFetchHandler (recordPreprocessors config)
  let s := s.Map policy "record:query" .RecordQueryHandler (recordPreprocessors config)
  let s := s.Map policy "record:save" .RecordSaveHandler (recordPreprocessors config)
  let s := s.Map policy "record:delete" .RecordDeleteHandler (recordPreprocessors config)
  let s := s.Map policy "device:register" .DeviceRegisterHandler
    [ .tokenStorePreprocess (fileTokenStorePreprocessor config),
      .userAuthenticatorPreprocess (authenticator config),
      .connPreprocess (fileSystemConnPreprocessor config),
      .injectUserIfPresent ]
  -- subscription shares the same set of preprocessor as record at the moment
  s.Map policy "subscription:save" .SubscriptionSaveHandler (recordPreprocessors config)

/-- Lines 37-120 of `main`: what `main` does once `configPath` is assigned. -/
def mainWith (w : World) (configPath : String) : List Event :=
  match w.ReadFileInto configPath with
  | .error err => [.ReadFileInto configPath, .Println err]
  | .ok config =>
    let subscription : List Event :=
      if config.Subscription.Enabled then
        [ .apnsNewClient config.APNS.Gateway config.APNS.CertPath config.APNS.KeyPath,
          .subscriptionInit (subscriptionService config) ]
      else []
    -- Setup Logging
    let logLv : Level :=
      match w.ParseLevel config.LOG.Level with
      | .ok lv => lv
      | .error _ => .DebugLevel
    let logging : List Event :=
      [.logSetOutputStderr, .logParseLevel config.LOG.Level, .logSetLevel logLv]
    let s := routes w.policy config
    let listen : List Event :=
      [ .logPrintf ("Listening on " ++ config.HTTP.Host ++ "..."),
        .ListenAndServe config.HTTP.Host s.r ]
    let failed : List Event :=
      match w.ListenAndServe config.HTTP.Host s.r with
      | some err => [.logPrintf ("Failed: " ++ err)]
      | none => []
    [.ReadFileInto configPath] ++ subscription ++ logging
      ++ [.fileStoreInit config.TokenStore.Path] ++ s.trace ++ listen ++ failed

/-- The function `main` (lines 25-121): the events of one run. -/
def main (w : World) : List Event :=
  if h : w.Args.length < 2 then
    let configPath := w.Getenv "OD_CONFIG"
    if configPath = "" then
      [.Getenv "OD_CONFIG"] ++ usage
    else
      [.Getenv "OD_CONFIG"] ++ mainWith w configPath
  else
    mainWith w (w.Args.get ⟨1, by omega⟩)

/-! ## Observations on a run -/

/-- The lines printed with `fmt.Println`. -/
def printed : List Event → List String
  | [] => []
  | .Println line :: t => line :: printed t
  | _ :: t => printed t

/-- The paths given to `ReadFileInto`. -/
def readPaths : List Event → List String
  | [] => []
  | .ReadFileInto path :: t => path :: readPaths t
  | _ :: t => readPaths t

/-- The `r.Map` calls, in order. -/
def mapCalls : List Event → List RouteEntry
  | [] => []
  | .Map action handler preprocessors :: t => ⟨action, handler, preprocessors⟩ :: mapCalls t
  | _ :: t => mapCalls t

/-- The routers handed to `http.ListenAndServe`. -/
def served : List Event → List Router
  | [] => []
  | .ListenAndServe _ r :: t => r :: served t
  | _ :: t => served t

/-- The shape of a registration: its action, its handler, and which
preprocessors it runs, in order. -/
def RouteEntry.shape (e : RouteEntry) : String × Handler × List ProcessorKind :=
  (e.action, e.handler, e.preprocessors.map Processor.kind)

/-! ## Two concrete worlds -/

/-- A configuration with subscriptions enabled. -/
def sampleConfig : Configuration :=
  { HTTP := ⟨":3000"⟩
    App := ⟨"myapp", "secret"⟩
    DB := ⟨"fs", "data"⟩
    TokenStore := ⟨"data/token"⟩
    Subscription := ⟨true⟩
    APNS := ⟨"gateway.push.apple.com:2195", "cert.pem", "key.pem"⟩
    LOG := ⟨"info"⟩ }

/-- A world in which `ourd dev.ini` is run, `dev.ini` holds `sampleConfig`,
and every other file is missing. -/
def sampleWorld : World :=
  { Args := ["ourd", "dev.ini"]
    environ := fun _ => none
    ReadFileInto := fun path =>
      if path = "dev.ini" then .ok sampleConfig else .error "open: no such file or directory"
    ParseLevel := fun s => if s = "info" then .ok .InfoLevel else .error "not a valid level"
    oddbOpen := fun impl _ _ => if impl = "fs" then .ok ⟨1⟩ else .error "unknown backend"
    policy := .overwrite
    ListenAndServe := fun _ _ => some "listen: address already in use" }

/-- The registration of `device:register` (lines 105-111) under
`sampleConfig`. -/
def sampleDeviceRegister : RouteEntry :=
  { action := "device:register"
    handler := .DeviceRegisterHandler
    preprocessors :=
      [ .tokenStorePreprocess (fileTokenStorePreprocessor sampleConfig),
        .userAuthenticatorPreprocess (authenticator sampleConfig),
        .connPreprocess (fileSystemConnPreprocessor sampleConfig),
        .injectUserIfPresent ] }

/-- The world of `sampleWorld`, with `ourd` run without argument (and
`OD_CONFIG` unset). -/
def bareWorld : World :=
  { sampleWorld with Args := ["ourd"] }

/-- The world of `sampleWorld`, with `ourd missing.ini` run. -/
def missingWorld : World :=
  { sampleWorld with Args := ["ourd", "missing.ini"] }

/-- A configuration with subscriptions disabled. -/
def quietConfig : Configuration :=
  { HTTP := ⟨":8000"⟩
    App := ⟨"other", "k"⟩
    DB := ⟨"pq", "dbname=other sslmode=disable"⟩
    TokenStore := ⟨"/var/ourd/token"⟩
    Subscription := ⟨false⟩
    APNS := ⟨"", "", ""⟩
    LOG := ⟨"verbose"⟩ }

/-- A world in which `ourd` is run without argument, `OD_CONFIG` names
`prod.ini`, and `prod.ini` holds `quietConfig`. -/
def quietWorld : World :=
  { Args := ["ourd"]
    environ := fun name => if name = "OD_CONFIG" then some "prod.ini" else none
    ReadFileInto := fun path =>
      if path = "prod.ini" then .ok quietConfig else .error "open: no such file or directory"
    ParseLevel := fun s => if s = "info" then .ok .InfoLevel else .error "not a valid level"
    oddbOpen := fun impl _ _ => if impl = "pq" then .ok ⟨2⟩ else .error "unknown backend"
    policy := .reject
    ListenAndServe := fun _ _ => none }

/-- The nine registrations of lines 83-114, as route entries. -/
def registrations (config : Configuration) : List RouteEntry :=
  mapCalls (routes .reject config).trace

/-! ## The shape of a run -/

theorem printed_append (a b : List Event) : printed (a ++ b) = printed a ++ printed b := by
  induction a with
  | nil => rfl
  | cons e t ih => cases e <;> simp [printed, ih]

theorem readPaths_append (a b : List Event) :
    readPaths (a ++ b) = readPaths a ++ readPaths b := by
  induction a with
  | nil => rfl
  | cons e t ih => cases e <;> simp [readPaths, ih]

theorem mapCalls_append (a b : List Event) : mapCalls (a ++ b) = mapCalls a ++ mapCalls b := by
  induction a with
  | nil => rfl
  | cons e t ih => cases e <;> simp [mapCalls, ih]

theorem served_append (a b : List Event) : served (a ++ b) = served a ++ served b := by
  induction a with
  | nil => rfl
  | cons e t ih => cases e <;> simp [served, ih]

theorem mem_readPaths (t : List Event) (p : String) :
    p ∈ readPaths t ↔ Event.ReadFileInto p ∈ t := by
  induction t with
  | nil => simp [readPaths]
  | cons e t ih => cases e <;> simp [readPaths, ih]

theorem mem_mapCalls (t : List Event) (e : RouteEntry) :
    e ∈ mapCalls t ↔ Event.Map e.action e.handler e.preprocessors ∈ t := by
  induction t with
  | nil => simp [mapCalls]
  | cons x t ih =>
    cases x <;> simp [mapCalls, ih]
    rename_i a h c
    cases e
    simp

/-- The events of lines 82-114 do not depend on the router's policy. -/
theorem routes_trace (policy : DuplicatePolicy) (config : Configuration) :
    (routes policy config).trace =
      Event.NewRouter :: (registrations config).map
        (fun e => Event.Map e.action e.handler e.preprocessors) := by
  simp [routes, Routing.Map, registrations, mapCalls]

/-- The nine registrations, written out. -/
theorem registrations_eq (config : Configuration) :
    registrations config =
      [ ⟨"", .HomeHandler, []⟩,
        ⟨"auth:signup", .SignupHandler, authPreprocessors config⟩,
        ⟨"auth:login", .LoginHandler, authPreprocessors config⟩,
        ⟨"record:fetch", .RecordFetchHandler, recordPreprocessors config⟩,
        ⟨"record:query", .RecordQueryHandler, recordPreprocessors config⟩,
        ⟨"record:save", .RecordSaveHandler, recordPreprocessors config⟩,
        ⟨"record:delete", .RecordDeleteHandler, recordPreprocessors config⟩,
        ⟨"device:register", .DeviceRegisterHandler,
          [ .tokenStorePreprocess (fileTokenStorePreprocessor config),
            .userAuthenticatorPreprocess (authenticator config),
            .connPreprocess (fileSystemConnPreprocessor config),
            .injectUserIfPresent ]⟩,
        ⟨"subscription:save", .SubscriptionSaveHandler, recordPreprocessors config⟩ ] := by
  simp [registrations, routes, Routing.Map, mapCalls]

/-- Under either policy the router `main` builds holds the registrations that
follow the first one, in order: the first, of the empty identifier, fails. -/
theorem routes_r (policy : DuplicatePolicy) (config : Configuration) :
    (routes policy config).r = ⟨(registrations config).tail⟩ := by
  rw [registrations_eq]
  cases policy <;> simp [routes, Routing.Map, Router.Map, NewRouter]

theorem mapCalls_map (l : List RouteEntry) :
    mapCalls (l.map (fun e => Event.Map e.action e.handler e.preprocessors)) = l := by
  induction l with
  | nil => rfl
  | cons e t ih => simp [mapCalls, ih]

theorem printed_map (l : List RouteEntry) :
    printed (l.map (fun e => Event.Map e.action e.handler e.preprocessors)) = [] := by
  induction l with
  | nil => rfl
  | cons e t ih => simp [printed, ih]

theorem readPaths_map (l : List RouteEntry) :
    readPaths (l.map (fun e => Event.Map e.action e.handler e.preprocessors)) = [] := by
  induction l with
  | nil => rfl
  | cons e t ih => simp [readPaths, ih]

theorem served_map (l : List RouteEntry) :
    served (l.map (fun e => Event.Map e.action e.handler e.preprocessors)) = [] := by
  induction l with
  | nil => rfl
  | cons e t ih => simp [served, ih]

/-- Lines 38-41: a failed read ends the run after the error is printed. -/
theorem mainWith_error (w : World) (cp msg : String) (h : w.ReadFileInto cp = .error msg) :
    mainWith w cp = [.ReadFileInto cp, .Println msg] := by
  simp [mainWith, h]

/-- Lines 43-120: the events of a run whose configuration was read. -/
theorem mainWith_ok (w : World) (cp : String) (config : Configuration)
    (h : w.ReadFileInto cp = .ok config) :
    mainWith w cp =
      [.ReadFileInto cp]
      ++ (if config.Subscription.Enabled then
            [ .apnsNewClient config.APNS.Gateway config.APNS.CertPath config.APNS.KeyPath,
              .subscriptionInit (subscriptionService config) ]
          else [])
      ++ [ .logSetOutputStderr, .logParseLevel config.LOG.Level,
           .logSetLevel (match w.ParseLevel config.LOG.Level with
             | .ok lv => lv
             | .error _ => .DebugLevel) ]
      ++ [.fileStoreInit config.TokenStore.Path]
      ++ (Event.NewRouter :: (registrations config).map
            (fun e => Event.Map e.action e.handler e.preprocessors))
      ++ [ .logPrintf ("Listening on " ++ config.HTTP.Host ++ "..."),
           .ListenAndServe config.HTTP.Host ⟨(registrations config).tail⟩ ]
      ++ (match w.ListenAndServe config.HTTP.Host ⟨(registrations config).tail⟩ with
          | some err => [.logPrintf ("Failed: " ++ err)]
          | none => []) := by
  simp only [mainWith, h, routes_trace, routes_r]

theorem readPaths_mainWith (w : World) (cp : String) : readPaths (mainWith w cp) = [cp] := by
  cases h : w.ReadFileInto cp with
  | error msg => simp [mainWith_error w cp msg h, readPaths]
  | ok config =>
    rw [mainWith_ok w cp config h]
    cases config.Subscription.Enabled <;>
      cases w.ListenAndServe config.HTTP.Host ⟨(registrations config).tail⟩ <;>
      simp [readPaths_append, readPaths_map, readPaths]

theorem mapCalls_mainWith_ok (w : World) (cp : String) (config : Configuration)
    (h : w.ReadFileInto cp = .ok config) : mapCalls (mainWith w cp) = registrations config := by
  rw [mainWith_ok w cp config h]
  cases config.Subscription.Enabled <;>
    cases w.ListenAndServe config.HTTP.Host ⟨(registrations config).tail⟩ <;>
    simp [mapCalls_append, mapCalls_map, mapCalls, registrations_eq]

theorem served_mainWith_ok (w : World) (cp : String) (config : Configuration)
    (h : w.ReadFileInto cp = .ok config) :
    served (mainWith w cp) = [⟨(registrations config).tail⟩] := by
  rw [mainWith_ok w cp config h]
  cases config.Subscription.Enabled <;>
    cases w.ListenAndServe config.HTTP.Host ⟨(registrations config).tail⟩ <;>
    simp [served_append, served_map, served, registrations_eq]

/-- Lines 26-35: the three ways `main` can go. -/
theorem main_shape (w : World) :
    (w.Args.length < 2 ∧ w.Getenv "OD_CONFIG" = "" ∧
        main w = [.Getenv "OD_CONFIG", .Println "Usage: ourd [<config file>]"]) ∨
    (w.Args.length < 2 ∧ w.Getenv "OD_CONFIG" ≠ "" ∧
        main w = Event.Getenv "OD_CONFIG" :: mainWith w (w.Getenv "OD_CONFIG")) ∨
    (∃ p, w.Args[1]? = some p ∧ main w = mainWith w p) := by
  by_cases hlen : w.Args.length < 2
  · by_cases henv : w.Getenv "OD_CONFIG" = ""
    · left
      simp [main, hlen, henv, usage]
    · right; left
      simp [main, hlen, henv]
  · right; right
    have h1 : 1 < w.Args.length := by omega
    refine ⟨w.Args.get ⟨1, h1⟩, ?_, ?_⟩
    · simp [List.getElem?_eq_getElem h1]
    · simp [main, hlen]

/-- A run that reads a path is the run of lines 37-120 on that path, after at
most the look-up of `OD_CONFIG`. -/
theorem main_of_read (w : World) (p : String) (h : Event.ReadFileInto p ∈ main w) :
    (main w = mainWith w p ∨ main w = Event.Getenv "OD_CONFIG" :: mainWith w p) := by
  rcases main_shape w with ⟨_, _, hm⟩ | ⟨_, _, hm⟩ | ⟨q, _, hm⟩
  · rw [hm] at h
    simp at h
  · rw [hm] at h
    have h2 : Event.ReadFileInto p ∈ mainWith w (w.Getenv "OD_CONFIG") := by
      simpa using h
    rw [← mem_readPaths, readPaths_mainWith] at h2
    have : p = w.Getenv "OD_CONFIG" := by simpa using h2
    right
    rw [hm, this]
  · rw [hm, ← mem_readPaths, readPaths_mainWith] at h
    have : p = q := by simpa using h
    left
    rw [hm, this]

/-- The registrations of a run whose configuration was read are the nine of
lines 83-114. -/
theorem mapCalls_main (w : World) (p : String) (config : Configuration)
    (hread : Event.ReadFileInto p ∈ main w) (hok : w.ReadFileInto p = .ok config) :
    mapCalls (main w) = registrations config := by
  rcases main_of_read w p hread with hm | hm
  · rw [hm, mapCalls_mainWith_ok w p config hok]
  · rw [hm]
    simp [mapCalls, mapCalls_mainWith_ok w p config hok]

/-- A run that registers a route has read its configuration. -/
theorem read_of_mapCalls (w : World) (e : RouteEntry) (he : e ∈ mapCalls (main w)) :
    ∃ p config, Event.ReadFileInto p ∈ main w ∧ w.ReadFileInto p = .ok config ∧
      mapCalls (main w) = registrations config := by
  have key : ∀ cp, e ∈ mapCalls (mainWith w cp) →
      ∃ config, w.ReadFileInto cp = .ok config := by
    intro cp hcp
    cases h : w.ReadFileInto cp with
    | error msg =>
      rw [mainWith_error w cp msg h] at hcp
      simp [mapCalls] at hcp
    | ok config => exact ⟨config, rfl⟩
  have rd : ∀ cp, Event.ReadFileInto cp ∈ mainWith w cp := by
    intro cp
    rw [← mem_readPaths, readPaths_mainWith]
    simp
  rcases main_shape w with ⟨_, _, hm⟩ | ⟨_, _, hm⟩ | ⟨q, _, hm⟩
  · rw [hm] at he
    simp [mapCalls] at he
  · have he2 : e ∈ mapCalls (mainWith w (w.Getenv "OD_CONFIG")) := by
      rw [hm] at he
      simpa [mapCalls] using he
    obtain ⟨config, hc⟩ := key _ he2
    have hr : Event.ReadFileInto (w.Getenv "OD_CONFIG") ∈ main w := by
      rw [hm]
      exact List.mem_cons_of_mem _ (rd _)
    exact ⟨_, config, hr, hc, mapCalls_main w _ config hr hc⟩
  · have he2 : e ∈ mapCalls (mainWith w q) := by
      rw [hm] at he
      exact he
    obtain ⟨config, hc⟩ := key _ he2
    have hr : Event.ReadFileInto q ∈ main w := by
      rw [hm]
      exact rd _
    exact ⟨_, config, hr, hc, mapCalls_main w _ config hr hc⟩

/-- The subscription service is initialised exactly when subscriptions are
enabled, and then it is the service of lines 47-50. -/
theorem mem_subscriptionInit_main (w : World) (p : String) (config : Configuration)
    (hread : Event.ReadFileInto p ∈ main w) (hok : w.ReadFileInto p = .ok config)
    (svc : Service) :
    Event.subscriptionInit svc ∈ main w ↔
      config.Subscription.Enabled = true ∧ svc = subscriptionService config := by
  rcases main_of_read w p hread with hm | hm <;>
    rw [hm, mainWith_ok w p config hok] <;>
    cases config.Subscription.Enabled <;>
    cases w.ListenAndServe config.HTTP.Host ⟨(registrations config).tail⟩ <;>
    simp

/-- The APNS client is created exactly when subscriptions are enabled, from
the three APNS settings. -/
theorem mem_apnsNewClient_main (w : World) (p : String) (config : Configuration)
    (hread : Event.ReadFileInto p ∈ main w) (hok : w.ReadFileInto p = .ok config)
    (g c k : String) :
    Event.apnsNewClient g c k ∈ main w ↔
      config.Subscription.Enabled = true ∧ g = config.APNS.Gateway ∧
        c = config.APNS.CertPath ∧ k = config.APNS.KeyPath := by
  rcases main_of_read w p hread with hm | hm <;>
    rw [hm, mainWith_ok w p config hok] <;>
    cases config.Subscription.Enabled <;>
    cases w.ListenAndServe config.HTTP.Host ⟨(registrations config).tail⟩ <;>
    simp

/-- The shapes of the nine registrations, whatever the configuration. -/
theorem registrations_shape (config : Configuration) :
    (registrations config).map RouteEntry.shape =
      [ ("", .HomeHandler, []),
        ("auth:signup", .SignupHandler, [.apiKeyValidaton, .conn, .tokenStore]),
        ("auth:login", .LoginHandler, [.apiKeyValidaton, .conn, .tokenStore]),
        ("record:fetch", .RecordFetchHandler,
          [.tokenStore, .userAuthenticator, .conn, .injectUserIfPresent, .injectDatabase]),
        ("record:query", .RecordQueryHandler,
          [.tokenStore, .userAuthenticator, .conn, .injectUserIfPresent, .injectDatabase]),
        ("record:save", .RecordSaveHandler,
          [.tokenStore, .userAuthenticator, .conn, .injectUserIfPresent, .injectDatabase]),
        ("record:delete", .RecordDeleteHandler,
          [.tokenStore, .userAuthenticator, .conn, .injectUserIfPresent, .injectDatabase]),
        ("device:register", .DeviceRegisterHandler,
          [.tokenStore, .userAuthenticator, .conn, .injectUserIfPresent]),
        ("subscription:save", .SubscriptionSaveHandler,
          [.tokenStore, .userAuthenticator, .conn, .injectUserIfPresent, .injectDatabase]) ] := by
  simp [registrations_eq, RouteEntry.shape, authPreprocessors, recordPreprocessors,
    Processor.kind]

/-! ## Start-up failures -/

/-- C1: when `main` is run with no command-line argument (`len(os.Args) < 2`)
and `OD_CONFIG` is unset or empty, the run consists of the look-up of
`OD_CONFIG` and the printing of the usage line: exactly the usage line is
printed, no configuration file is read, no route is registered and the HTTP
listener is not started. -/
theorem C1_usage_and_nothing_else (w : World) (hargs : w.Args.length < 2)
    (henv : w.environ "OD_CONFIG" = none ∨ w.environ "OD_CONFIG" = some "") :
    main w = [.Getenv "OD_CONFIG", .Println "Usage: ourd [<config file>]"] ∧
    printed (main w) = ["Usage: ourd [<config file>]"] ∧
    readPaths (main w) = [] ∧
    mapCalls (main w) = [] ∧
    served (main w) = [] := by
  have hget : w.Getenv "OD_CONFIG" = "" := by
    rcases henv with h | h <;> simp [World.Getenv, h]
  have hm : main w = [.Getenv "OD_CONFIG", .Println "Usage: ourd [<config file>]"] := by
    simp [main, hargs, hget, usage]
  rw [hm]
  exact ⟨rfl, rfl, rfl, rfl, rfl⟩

/-- C1, at a run of `ourd` without argument in an empty environment. -/
theorem C1_usage_and_nothing_else_witness :
    main bareWorld
        = [.Getenv "OD_CONFIG", .Println "Usage: ourd [<config file>]"] ∧
    printed (main bareWorld) = ["Usage: ourd [<config file>]"] ∧
    readPaths (main bareWorld) = [] ∧
    mapCalls (main bareWorld) = [] ∧
    served (main bareWorld) = [] :=
  C1_usage_and_nothing_else bareWorld (by decide) (Or.inl rfl)

/-- C2: when `ReadFileInto` fails on the path `main` gives it, `main` prints
the error's message and returns: the run is the read followed by the print
(after the look-up of `OD_CONFIG`, if there was one); the APNS client is not
created, the subscription service is not initialised, the token store of the
preprocessors is not set up, no router is created, no route is registered and
the HTTP listener is not started. -/
theorem C2_read_failure_stops (w : World) (p msg : String)
    (hread : Event.ReadFileInto p ∈ main w) (herr : w.ReadFileInto p = .error msg) :
    (main w = [.ReadFileInto p, .Println msg] ∨
      main w = [.Getenv "OD_CONFIG", .ReadFileInto p, .Println msg]) ∧
    printed (main w) = [msg] ∧
    (∀ g c k, Event.apnsNewClient g c k ∉ main w) ∧
    (∀ s, Event.subscriptionInit s ∉ main w) ∧
    (∀ path, Event.fileStoreInit path ∉ main w) ∧
    Event.NewRouter ∉ main w ∧
    mapCalls (main w) = [] ∧
    served (main w) = [] := by
  rcases main_of_read w p hread with hm | hm <;>
    rw [hm, mainWith_error w p msg herr] <;>
    simp [printed, mapCalls, served]

/-- C2, at a run of `ourd missing.ini` where the file does not exist. -/
theorem C2_read_failure_stops_witness :
    (main missingWorld
        = [.ReadFileInto "missing.ini", .Println "open: no such file or directory"] ∨
      main missingWorld
        = [.Getenv "OD_CONFIG", .ReadFileInto "missing.ini",
            .Println "open: no such file or directory"]) ∧
    printed (main missingWorld)
      = ["open: no such file or directory"] ∧
    (∀ g c k, Event.apnsNewClient g c k ∉ main missingWorld) ∧
    (∀ s, Event.subscriptionInit s ∉ main missingWorld) ∧
    (∀ path, Event.fileStoreInit path ∉ main missingWorld) ∧
    Event.NewRouter ∉ main missingWorld ∧
    mapCalls (main missingWorld) = [] ∧
    served (main missingWorld) = [] :=
  C2_read_failure_stops missingWorld "missing.ini"
    "open: no such file or directory" (by decide) rfl

/-! ## The configuration path -/

/-- C9: when at least one command-line argument is given, the path `main`
reads is `os.Args[1]`, and the run as a whole is the same whatever the
environment holds; `OD_CONFIG` is looked up if and only if no argument is
given, and then its value, when not empty, is the path read. -/
theorem C9_argument_before_environment (w : World) :
    (∀ p, w.Args[1]? = some p → readPaths (main w) = [p]) ∧
    (2 ≤ w.Args.length → ∀ environ, main { w with environ := environ } = main w) ∧
    (Event.Getenv "OD_CONFIG" ∈ main w ↔ w.Args.length < 2) ∧
    (w.Args.length < 2 → w.Getenv "OD_CONFIG" ≠ "" →
      readPaths (main w) = [w.Getenv "OD_CONFIG"]) ∧
    (w.Args.length < 2 → w.Getenv "OD_CONFIG" = "" → readPaths (main w) = []) := by
  have hnoget : ∀ cp, Event.Getenv "OD_CONFIG" ∉ mainWith w cp := by
    intro cp
    cases h : w.ReadFileInto cp with
    | error msg => simp [mainWith_error w cp msg h]
    | ok config =>
      rw [mainWith_ok w cp config h]
      cases config.Subscription.Enabled <;>
        cases w.ListenAndServe config.HTTP.Host ⟨(registrations config).tail⟩ <;> simp
  refine ⟨?_, ?_, ?_, ?_, ?_⟩
  · intro p hp
    have hlen : ¬ w.Args.length < 2 := by
      have := (List.getElem?_eq_some_iff.mp hp).1
      omega
    have h1 : 1 < w.Args.length := by omega
    have hget : w.Args[1] = p := by
      obtain ⟨_, h⟩ := List.getElem?_eq_some_iff.mp hp
      exact h
    simp [main, hlen, hget, readPaths_mainWith]
  · intro h2 environ
    have hlen : ¬ w.Args.length < 2 := by omega
    simp [main, hlen, mainWith]
  · constructor
    · intro hmem
      by_contra hlen
      simp only [main, hlen, dite_false] at hmem
      exact hnoget _ hmem
    · intro hlen
      by_cases henv : w.Getenv "OD_CONFIG" = "" <;> simp [main, hlen, henv]
  · intro hlen henv
    simp [main, hlen, henv, readPaths, readPaths_mainWith]
  · intro hlen henv
    simp [main, hlen, henv, readPaths, usage]

/-- C9, at a run of `ourd dev.ini`: the path read is `dev.ini`. -/
theorem C9_argument_before_environment_witness :
    readPaths (main sampleWorld) = ["dev.ini"] :=
  (C9_argument_before_environment sampleWorld).1 "dev.ini" rfl

/-! ## The preprocessor chains -/

/-- C3: in a run whose configuration was read, `subscription:save` is
registered with the chain `recordPreprocessors`; each of `record:fetch`,
`record:query`, `record:save` and `record:delete` is registered, and every
registration of one of them carries a chain equal, as a list, to that of every
registration of `subscription:save`; this chain contains the connection-opening
preprocessor and the user-authentication preprocessor. -/
theorem C3_subscription_shares_record_chain (w : World) (p : String) (config : Configuration)
    (hread : Event.ReadFileInto p ∈ main w) (hok : w.ReadFileInto p = .ok config) :
    (⟨"subscription:save", .SubscriptionSaveHandler, recordPreprocessors config⟩
        ∈ mapCalls (main w)) ∧
    (∀ a ∈ ["record:fetch", "record:query", "record:save", "record:delete"],
      ∃ e ∈ mapCalls (main w), e.action = a) ∧
    (∀ s ∈ mapCalls (main w), s.action = "subscription:save" →
      ∀ e ∈ mapCalls (main w),
        e.action ∈ ["record:fetch", "record:query", "record:save", "record:delete"] →
        e.preprocessors = s.preprocessors) ∧
    (∀ s ∈ mapCalls (main w), s.action = "subscription:save" →
      Processor.connPreprocess (fileSystemConnPreprocessor config) ∈ s.preprocessors ∧
      Processor.userAuthenticatorPreprocess (authenticator config) ∈ s.preprocessors) := by
  rw [mapCalls_main w p config hread hok, registrations_eq]
  refine ⟨by simp, by simp, ?_, ?_⟩
  · intro s hs hsa e he hea
    simp only [List.mem_cons, List.mem_singleton, List.not_mem_nil, or_false] at hs he hea
    have h1 : s.preprocessors = recordPreprocessors config := by
      rcases hs with rfl | rfl | rfl | rfl | rfl | rfl | rfl | rfl | rfl
      all_goals first | rfl | simp at hsa
    have h2 : e.preprocessors = recordPreprocessors config := by
      rcases he with rfl | rfl | rfl | rfl | rfl | rfl | rfl | rfl | rfl
      all_goals first | rfl | simp at hea
    rw [h1, h2]
  · intro s hs hsa
    simp only [List.mem_cons, List.mem_singleton, List.not_mem_nil, or_false] at hs
    have h1 : s.preprocessors = recordPreprocessors config := by
      rcases hs with rfl | rfl | rfl | rfl | rfl | rfl | rfl | rfl | rfl
      all_goals first | rfl | simp at hsa
    rw [h1]
    simp [recordPreprocessors]

/-- C3, at the run of `ourd dev.ini`. -/
theorem C3_subscription_shares_record_chain_witness :
    (⟨"subscription:save", .SubscriptionSaveHandler, recordPreprocessors sampleConfig⟩
        ∈ mapCalls (main sampleWorld)) ∧
    (∀ a ∈ ["record:fetch", "record:query", "record:save", "record:delete"],
      ∃ e ∈ mapCalls (main sampleWorld), e.action = a) ∧
    (∀ s ∈ mapCalls (main sampleWorld), s.action = "subscription:save" →
      ∀ e ∈ mapCalls (main sampleWorld),
        e.action ∈ ["record:fetch", "record:query", "record:save", "record:delete"] →
        e.preprocessors = s.preprocessors) ∧
    (∀ s ∈ mapCalls (main sampleWorld), s.action = "subscription:save" →
      Processor.connPreprocess (fileSystemConnPreprocessor sampleConfig) ∈ s.preprocessors ∧
      Processor.userAuthenticatorPreprocess (authenticator sampleConfig) ∈ s.preprocessors) :=
  C3_subscription_shares_record_chain sampleWorld "dev.ini" sampleConfig (by decide) rfl

/-- C4: in every chain `main` registers, every position that holds a
user-authentication preprocessor holds `authenticator.Preprocess` of the run
and comes strictly after a position that holds the token-store preprocessor of
the run (`fileTokenStorePreprocessor.Preprocess`). -/
theorem C4_token_store_before_authenticator (w : World) (e : RouteEntry)
    (he : e ∈ mapCalls (main w)) :
    ∃ p config, Event.ReadFileInto p ∈ main w ∧ w.ReadFileInto p = .ok config ∧
      ∀ j : Nat, (e.preprocessors[j]?).map Processor.kind = some ProcessorKind.userAuthenticator →
        e.preprocessors[j]? = some (Processor.userAuthenticatorPreprocess (authenticator config)) ∧
        ∃ i : Nat, i < j ∧
          e.preprocessors[i]?
            = some (Processor.tokenStorePreprocess (fileTokenStorePreprocessor config)) := by
  obtain ⟨p, config, hread, hok, hreg⟩ := read_of_mapCalls w e he
  refine ⟨p, config, hread, hok, ?_⟩
  rw [hreg, registrations_eq] at he
  simp only [List.mem_cons, List.mem_singleton, List.not_mem_nil, or_false] at he
  intro j hj
  rcases he with rfl | rfl | rfl | rfl | rfl | rfl | rfl | rfl | rfl
  all_goals simp only [authPreprocessors, recordPreprocessors] at hj ⊢
  all_goals rcases j with _ | _ | _ | _ | _ | _ | j
  all_goals simp [Processor.kind] at hj ⊢

/-- C4, at the registration of `device:register` in the run of
`ourd dev.ini`. -/
theorem C4_token_store_before_authenticator_witness :
    ∃ p config, Event.ReadFileInto p ∈ main sampleWorld ∧
      sampleWorld.ReadFileInto p = .ok config ∧
      ∀ j : Nat, (sampleDeviceRegister.preprocessors[j]?).map Processor.kind
            = some ProcessorKind.userAuthenticator →
        sampleDeviceRegister.preprocessors[j]?
          = some (Processor.userAuthenticatorPreprocess (authenticator config)) ∧
        ∃ i : Nat, i < j ∧
          sampleDeviceRegister.preprocessors[i]?
            = some (Processor.tokenStorePreprocess (fileTokenStorePreprocessor config)) :=
  C4_token_store_before_authenticator sampleWorld sampleDeviceRegister (by decide)

/-- C5: every route `main` registers with a non-empty chain has the
connection-opening preprocessor of the run (`fileSystemConnPreprocessor.Preprocess`)
in its chain, at a position strictly before every position that holds
`injectUserIfPresent` or `injectDatabase`. -/
theorem C5_connection_before_its_consumers (w : World) (e : RouteEntry)
    (he : e ∈ mapCalls (main w)) (hne : e.preprocessors ≠ []) :
    ∃ p config, Event.ReadFileInto p ∈ main w ∧ w.ReadFileInto p = .ok config ∧
      ∃ i : Nat,
        e.preprocessors[i]? = some (Processor.connPreprocess (fileSystemConnPreprocessor config)) ∧
        ∀ j : Nat, (e.preprocessors[j]? = some Processor.injectUserIfPresent ∨
            e.preprocessors[j]? = some Processor.injectDatabase) → i < j := by
  obtain ⟨p, config, hread, hok, hreg⟩ := read_of_mapCalls w e he
  refine ⟨p, config, hread, hok, ?_⟩
  rw [hreg, registrations_eq] at he
  simp only [List.mem_cons, List.mem_singleton, List.not_mem_nil, or_false] at he
  rcases he with rfl | rfl | rfl | rfl | rfl | rfl | rfl | rfl | rfl
  · exact absurd rfl hne
  · refine ⟨1, rfl, ?_⟩
    intro j hj
    rcases j with _ | _ | j <;> simp [authPreprocessors] at hj ⊢
  · refine ⟨1, rfl, ?_⟩
    intro j hj
    rcases j with _ | _ | j <;> simp [authPreprocessors] at hj ⊢
  · refine ⟨2, rfl, ?_⟩
    intro j hj
    rcases j with _ | _ | _ | j <;> simp [recordPreprocessors] at hj ⊢
  · refine ⟨2, rfl, ?_⟩
    intro j hj
    rcases j with _ | _ | _ | j <;> simp [recordPreprocessors] at hj ⊢
  · refine ⟨2, rfl, ?_⟩
    intro j hj
    rcases j with _ | _ | _ | j <;> simp [recordPreprocessors] at hj ⊢
  · refine ⟨2, rfl, ?_⟩
    intro j hj
    rcases j with _ | _ | _ | j <;> simp [recordPreprocessors] at hj ⊢
  · refine ⟨2, rfl, ?_⟩
    intro j hj
    rcases j with _ | _ | _ | j <;> simp at hj ⊢
  · refine ⟨2, rfl, ?_⟩
    intro j hj
    rcases j with _ | _ | _ | j <;> simp [recordPreprocessors] at hj ⊢

/-- C5, at the registration of `device:register` in the run of
`ourd dev.ini`. -/
theorem C5_connection_before_its_consumers_witness :
    ∃ p config, Event.ReadFileInto p ∈ main sampleWorld ∧
      sampleWorld.ReadFileInto p = .ok config ∧
      ∃ i : Nat,
        sampleDeviceRegister.preprocessors[i]?
          = some (Processor.connPreprocess (fileSystemConnPreprocessor config)) ∧
        ∀ j : Nat, (sampleDeviceRegister.preprocessors[j]? = some Processor.injectUserIfPresent ∨
            sampleDeviceRegister.preprocessors[j]? = some Processor.injectDatabase) → i < j :=
  C5_connection_before_its_consumers sampleWorld sampleDeviceRegister (by decide) (by decide)

/-! ## The action identifiers -/

/-- C6, refuted as stated: in the run of `ourd dev.ini`, not every action
identifier given to `r.Map` is non-empty. -/
theorem C6_empty_identifier_registered :
    ¬ (∀ e ∈ mapCalls (main sampleWorld), e.action ≠ "") := by
  decide

/-- C6, amended: in every run that registers a route, the first registration
binds the empty action identifier to `handler.HomeHandler` with an empty chain
(line 83), and every later registration, of which there are eight, has a
non-empty action identifier. -/
theorem C6_only_home_has_empty_identifier (w : World) (e : RouteEntry)
    (he : e ∈ mapCalls (main w)) :
    (mapCalls (main w)).head? = some ⟨"", .HomeHandler, []⟩ ∧
    (∀ x ∈ (mapCalls (main w)).tail, x.action ≠ "") ∧
    (e.action = "" → e = ⟨"", .HomeHandler, []⟩) ∧
    (mapCalls (main w)).tail.length = 8 := by
  obtain ⟨p, config, hread, hok, hreg⟩ := read_of_mapCalls w e he
  rw [hreg, registrations_eq] at he ⊢
  refine ⟨rfl, by simp, ?_, rfl⟩
  intro hea
  simp only [List.mem_cons, List.mem_singleton, List.not_mem_nil, or_false] at he
  rcases he with rfl | rfl | rfl | rfl | rfl | rfl | rfl | rfl | rfl
  all_goals first | rfl | simp at hea

/-- C6 amended, at the registration of `device:register` in the run of
`ourd dev.ini`. -/
theorem C6_only_home_has_empty_identifier_witness :
    (mapCalls (main sampleWorld)).head? = some ⟨"", .HomeHandler, []⟩ ∧
    (∀ x ∈ (mapCalls (main sampleWorld)).tail, x.action ≠ "") ∧
    (sampleDeviceRegister.action = "" → sampleDeviceRegister = ⟨"", .HomeHandler, []⟩) ∧
    (mapCalls (main sampleWorld)).tail.length = 8 :=
  C6_only_home_has_empty_identifier sampleWorld sampleDeviceRegister (by decide)

/-- C7, refuted as stated: in the run of `ourd dev.ini`, the router handed to
the listener does not hold nine entries: the registration of the empty
identifier fails in the router of the spec, section 4.1. -/
theorem C7_served_table_not_nine :
    ¬ (∀ r ∈ served (main sampleWorld), r.actions.length = 9) := by
  decide

/-- C7, amended: in a run whose configuration was read, `main` calls `r.Map`
nine times, with pairwise distinct action identifiers; under either
duplicate-registration policy the router handed to the listener holds exactly
the registrations with a non-empty identifier, in order, one entry per such
call (eight entries); looking a non-empty registered identifier up gives the
registration made for it, and the empty identifier is not bound. -/
theorem C7_identifiers_distinct (w : World) (p : String) (config : Configuration)
    (hread : Event.ReadFileInto p ∈ main w) (hok : w.ReadFileInto p = .ok config) :
    (mapCalls (main w)).length = 9 ∧
    ((mapCalls (main w)).map RouteEntry.action).Nodup ∧
    (∀ policy : DuplicatePolicy,
      served (main { w with policy := policy })
        = [⟨(mapCalls (main w)).filter (fun e => e.action != "")⟩]) ∧
    (∀ r ∈ served (main w), r.actions.length = 8 ∧
      (∀ e ∈ mapCalls (main w), e.action ≠ "" → r.lookup e.action = some e) ∧
      r.lookup "" = none) := by
  have hfilter : (registrations config).filter (fun e => e.action != "")
      = (registrations config).tail := by
    simp [registrations_eq]
  have hserved : ∀ policy : DuplicatePolicy,
      served (main { w with policy := policy }) = [⟨(registrations config).tail⟩] := by
    intro policy
    have hm : Event.ReadFileInto p ∈ main { w with policy := policy } := by
      rw [← mem_readPaths] at hread ⊢
      have e1 : readPaths (main { w with policy := policy }) = readPaths (main w) := by
        rcases main_shape w with ⟨h1, h2, _⟩ | ⟨h1, h2, _⟩ | ⟨q, hq, _⟩
        · have h2b : World.Getenv { w with policy := policy } "OD_CONFIG" = "" := h2
          simp [main, h1, h2, h2b, readPaths, usage]
        · have h2b : World.Getenv { w with policy := policy } "OD_CONFIG"
              = w.Getenv "OD_CONFIG" := rfl
          simp [main, h1, h2, h2b, readPaths, readPaths_mainWith]
        · have hlen : ¬ w.Args.length < 2 := by
            have := (List.getElem?_eq_some_iff.mp hq).1
            omega
          simp [main, hlen, readPaths_mainWith]
      rw [e1]
      exact hread
    rcases main_of_read _ p hm with h | h
    · rw [h, served_mainWith_ok { w with policy := policy } p config hok]
    · rw [h]
      simp [served, served_mainWith_ok { w with policy := policy } p config hok]
  have hs : served (main w) = [⟨(registrations config).tail⟩] := hserved w.policy
  rw [hs, mapCalls_main w p config hread hok, hfilter]
  refine ⟨?_, ?_, hserved, ?_⟩
  · simp [registrations_eq]
  · simp [registrations_eq]
  · intro r hr
    simp only [List.mem_singleton] at hr
    subst hr
    rw [registrations_eq]
    refine ⟨rfl, ?_, ?_⟩
    · intro e he hne
      simp only [List.mem_cons, List.mem_singleton, List.not_mem_nil, or_false] at he
      rcases he with rfl | rfl | rfl | rfl | rfl | rfl | rfl | rfl | rfl
      · exact absurd rfl hne
      all_goals simp [Router.lookup, List.find?]
    · simp [Router.lookup, List.find?]

/-- C7 amended, at the run of `ourd dev.ini`. -/
theorem C7_identifiers_distinct_witness :
    (mapCalls (main sampleWorld)).length = 9 ∧
    ((mapCalls (main sampleWorld)).map RouteEntry.action).Nodup ∧
    (∀ policy : DuplicatePolicy,
      served (main { sampleWorld with policy := policy })
        = [⟨(mapCalls (main sampleWorld)).filter (fun e => e.action != "")⟩]) ∧
    (∀ r ∈ served (main sampleWorld), r.actions.length = 8 ∧
      (∀ e ∈ mapCalls (main sampleWorld), e.action ≠ "" → r.lookup e.action = some e) ∧
      r.lookup "" = none) :=
  C7_identifiers_distinct sampleWorld "dev.ini" sampleConfig (by decide) rfl

/-! ## Storage selection and the subscription service -/

/-- C8: in a run whose configuration was read, the `ConnOpener` of the
subscription service that is initialised returns, when called, the result of
`oddb.Open(config.DB.ImplName, config.App.Name, config.DB.Option)` (the service
exists when subscriptions are enabled), and every connection preprocessor in a
registered chain has `DBImpl = config.DB.ImplName`, `Option = config.DB.Option`
and `oddb.Open` as its `DBOpener`. -/
theorem C8_backend_named_by_configuration (w : World) (p : String) (config : Configuration)
    (hread : Event.ReadFileInto p ∈ main w) (hok : w.ReadFileInto p = .ok config) :
    (∀ svc, Event.subscriptionInit svc ∈ main w → ∀ oddbOpen : OpenFn,
      svc.ConnOpener.call oddbOpen
        = oddbOpen config.DB.ImplName config.App.Name config.DB.Option) ∧
    (config.Subscription.Enabled = true →
      Event.subscriptionInit (subscriptionService config) ∈ main w) ∧
    (∀ e ∈ mapCalls (main w), ∀ c, Processor.connPreprocess c ∈ e.preprocessors →
      c.DBImpl = config.DB.ImplName ∧ c.Option = config.DB.Option ∧
      c.DBOpener = DBOpenerRef.oddb_Open ∧
      ∀ oddbOpen : OpenFn, c.DBOpener.call oddbOpen = oddbOpen) := by
  refine ⟨?_, ?_, ?_⟩
  · intro svc hsvc oddbOpen
    obtain ⟨_, rfl⟩ := (mem_subscriptionInit_main w p config hread hok svc).mp hsvc
    rfl
  · intro hen
    exact (mem_subscriptionInit_main w p config hread hok _).mpr ⟨hen, rfl⟩
  · rw [mapCalls_main w p config hread hok, registrations_eq]
    intro e he c hc
    have hcc : c = fileSystemConnPreprocessor config := by
      simp only [List.mem_cons, List.mem_singleton, List.not_mem_nil, or_false] at he
      rcases he with rfl | rfl | rfl | rfl | rfl | rfl | rfl | rfl | rfl
      all_goals simp [authPreprocessors, recordPreprocessors] at hc
      all_goals exact hc
    subst hcc
    exact ⟨rfl, rfl, rfl, fun _ => rfl⟩

/-- C8, at the run of `ourd dev.ini`, where subscriptions are enabled. -/
theorem C8_backend_named_by_configuration_witness :
    (∀ svc, Event.subscriptionInit svc ∈ main sampleWorld → ∀ oddbOpen : OpenFn,
      svc.ConnOpener.call oddbOpen
        = oddbOpen sampleConfig.DB.ImplName sampleConfig.App.Name sampleConfig.DB.Option) ∧
    (sampleConfig.Subscription.Enabled = true →
      Event.subscriptionInit (subscriptionService sampleConfig) ∈ main sampleWorld) ∧
    (∀ e ∈ mapCalls (main sampleWorld), ∀ c, Processor.connPreprocess c ∈ e.preprocessors →
      c.DBImpl = sampleConfig.DB.ImplName ∧ c.Option = sampleConfig.DB.Option ∧
      c.DBOpener = DBOpenerRef.oddb_Open ∧
      ∀ oddbOpen : OpenFn, c.DBOpener.call oddbOpen = oddbOpen) :=
  C8_backend_named_by_configuration sampleWorld "dev.ini" sampleConfig (by decide) rfl

/-- C10: any two runs whose configuration was read register the same sequence
of routes, up to the configured values inside the preprocessors: the same
action identifiers, handlers and kinds of preprocessors, in the same order.
`subscription:save` is among them whatever `config.Subscription.Enabled` is,
whereas the APNS client is created, and the subscription service initialised,
if and only if `config.Subscription.Enabled` is true. -/
theorem C10_routes_independent_of_configuration (w w2 : World) (p p2 : String)
    (config config2 : Configuration)
    (hread : Event.ReadFileInto p ∈ main w) (hok : w.ReadFileInto p = .ok config)
    (hread2 : Event.ReadFileInto p2 ∈ main w2) (hok2 : w2.ReadFileInto p2 = .ok config2) :
    (mapCalls (main w)).map RouteEntry.shape = (mapCalls (main w2)).map RouteEntry.shape ∧
    "subscription:save" ∈ (mapCalls (main w)).map RouteEntry.action ∧
    ((∃ g c k, Event.apnsNewClient g c k ∈ main w) ↔ config.Subscription.Enabled = true) ∧
    ((∃ svc, Event.subscriptionInit svc ∈ main w) ↔ config.Subscription.Enabled = true) := by
  refine ⟨?_, ?_, ?_, ?_⟩
  · rw [mapCalls_main w p config hread hok, mapCalls_main w2 p2 config2 hread2 hok2,
      registrations_shape, registrations_shape]
  · rw [mapCalls_main w p config hread hok, registrations_eq]
    simp
  · constructor
    · rintro ⟨g, c, k, h⟩
      exact ((mem_apnsNewClient_main w p config hread hok g c k).mp h).1
    · intro hen
      exact ⟨_, _, _, (mem_apnsNewClient_main w p config hread hok _ _ _).mpr
        ⟨hen, rfl, rfl, rfl⟩⟩
  · constructor
    · rintro ⟨svc, h⟩
      exact ((mem_subscriptionInit_main w p config hread hok svc).mp h).1
    · intro hen
      exact ⟨_, (mem_subscriptionInit_main w p config hread hok _).mpr ⟨hen, rfl⟩⟩

/-- C10, at the run of `ourd` with `OD_CONFIG=prod.ini` (subscriptions
disabled) against the run of `ourd dev.ini` (subscriptions enabled). -/
theorem C10_routes_independent_of_configuration_witness :
    (mapCalls (main quietWorld)).map RouteEntry.shape
      = (mapCalls (main sampleWorld)).map RouteEntry.shape ∧
    "subscription:save" ∈ (mapCalls (main quietWorld)).map RouteEntry.action ∧
    ((∃ g c k, Event.apnsNewClient g c k ∈ main quietWorld)
      ↔ quietConfig.Subscription.Enabled = true) ∧
    ((∃ svc, Event.subscriptionInit svc ∈ main quietWorld)
      ↔ quietConfig.Subscription.Enabled = true) :=
  C10_routes_independent_of_configuration quietWorld sampleWorld "prod.ini" "dev.ini"
    quietConfig sampleConfig (by decide) rfl (by decide) rfl

end Ourd
